import Mathlib

set_option maxRecDepth 8000

/-!
Verification of the purchase-order lifecycle engine of the MRP inventory
system (namanlohia-coder/mrp-inventory-system).

The engine lives in `src/lib/data.ts` (TypeScript functions issuing
Supabase queries) and `supabase/schema.sql` (tables, CHECK constraints,
and the `receive_purchase_order` stored procedure).  We embed the store as
explicit lists of rows and each operation as a state-passing function.
Fallible operations return the (possibly partially mutated) store together
with an optional error: the TypeScript functions are sequences of separate
awaited queries with `throw` on error and no surrounding transaction, so a
mid-sequence failure leaves the earlier writes in place, and the embedding
keeps that behaviour.  The plpgsql stored procedure, by contrast, runs in a
single transaction, so it is embedded as a total function on the store.

Columns not read or written by the lifecycle operations (names, SKUs,
prices, timestamps, is_active flags, ...) are omitted from the row types;
`created_at` ordering is represented by keeping each table's list in
insertion order (oldest first).  Dates and generated UUIDs are passed in
as explicit string parameters.
-/

/-- Status literal "draft". -/
def statusDraft : String := "draft"

/-- Status literal "ordered". -/
def statusOrdered : String := "ordered"

/-- Status literal "partial" (the value allowed by the schema CHECK). -/
def statusPartialStr : String := "partial"

/-- Status literal "received". -/
def statusReceived : String := "received"

/-- Status literal "cancelled". -/
def statusCancelled : String := "cancelled"

/-- Status literal "partially_received", written by `partialReceivePO` in
`data.ts` (cast through `as any`); it is not among the values allowed by
the schema CHECK constraint on `purchase_orders.status`. -/
def statusPartiallyReceived : String := "partially_received"

/-- Movement type literal "in". -/
def movementIn : String := "in"

/-- The PO-number prefix "PO-" (exact case, as in the regex `^PO-(\d+)` of
`getNextPONumber`). -/
def strPO : String := "PO-"

/-- Lower-case prefix "po-", the case-folded pattern of the case-insensitive
`ilike("po_number", "PO-%")` filter. -/
def strPoLower : String := "po-"

/-- The fallback PO number "PO-1001" returned when the query errors or
returns no rows. -/
def defaultPONumber : String := "PO-1001"

/-- Reference text "PO partial receive" used on movements created by
`partialReceivePO`. -/
def refPartialReceive : String := "PO partial receive"

/-- Notes prefix "Partial receive from PO " used by `partialReceivePO`. -/
def notesPartialReceiveFrom : String := "Partial receive from PO "

/-- Notes prefix "Received from PO " used by the stored procedure
`receive_purchase_order`. -/
def notesReceivedFromPO : String := "Received from PO "

/-- Error produced by `.single()` when the requested `po_line_items` row
does not exist (thrown by `partialReceivePO`). -/
def errLineItemNotFound : String := "PGRST116: line item row not found"

/-- Error produced by `.single()` when the requested `products` row does
not exist (thrown by `getProduct`). -/
def errProductNotFound : String := "PGRST116: product row not found"

/-- Error produced by the CHECK constraint on `purchase_orders.status`
when an update supplies a value outside the allowed set. -/
def errStatusCheckViolation : String := "23514: purchase_orders status check violation"

/-- Error produced by the foreign key `po_line_items.product_id REFERENCES
products(id)` when an inserted line item names an unknown product. -/
def errForeignKeyViolation : String := "23503: po_line_items product_id fkey violation"

/-- A row of the `products` table, restricted to the columns the lifecycle
engine reads or writes (`id`, `stock`). -/
structure Product where
  id : String
  stock : Int
  deriving Repr, DecidableEq

/-- A row of the `purchase_orders` table, restricted to the columns the
lifecycle engine touches. -/
structure PurchaseOrder where
  id : String
  po_number : String
  supplier_id : Option String
  status : String
  expected_date : Option String
  received_date : Option String
  notes : String
  total_amount : Rat
  deriving Repr, DecidableEq

/-- A row of the `po_line_items` table. -/
structure POLineItem where
  id : String
  po_id : String
  product_id : String
  quantity : Int
  unit_cost : Rat
  received_qty : Int
  deriving Repr, DecidableEq

/-- A row of the `stock_movements` table (the generated id and timestamp
are omitted; the list order is insertion order). -/
structure StockMovement where
  product_id : String
  movement_type : String
  quantity : Int
  reference : String
  notes : String
  deriving Repr, DecidableEq

/-- The persistent store: the four tables the lifecycle engine touches,
each as a list of rows in insertion (`created_at`) order, oldest first. -/
structure Store where
  products : List Product
  purchase_orders : List PurchaseOrder
  po_line_items : List POLineItem
  stock_movements : List StockMovement
  deriving Repr, DecidableEq

/-- The CHECK constraint on `purchase_orders.status` from `schema.sql`:
status IN ('draft', 'ordered', 'partial', 'received', 'cancelled'). -/
def validStatus (st : String) : Bool :=
  st == statusDraft || st == statusOrdered || st == statusPartialStr ||
  st == statusReceived || st == statusCancelled

/-- Lookup of a product row by id (`.from("products").select().eq("id", id).single()`). -/
def findProduct? (s : Store) (pid : String) : Option Product :=
  s.products.find? (fun p => p.id == pid)

/-- Lookup of a purchase-order row by id. -/
def findPO? (s : Store) (poId : String) : Option PurchaseOrder :=
  s.purchase_orders.find? (fun po => po.id == poId)

/-- Lookup of a line-item row by id. -/
def findLineItem? (s : Store) (liId : String) : Option POLineItem :=
  s.po_line_items.find? (fun li => li.id == liId)

/-- UPDATE products SET stock = v WHERE id = pid (the form used by the
TypeScript `updateProduct(id, \x7b stock \x7d)`). -/
def setProductStock (s : Store) (pid : String) (v : Int) : Store :=
  { s with products := s.products.map (fun p => if p.id == pid then { p with stock := v } else p) }

/-- UPDATE products SET stock = stock + q WHERE id = pid (the form used by
the stored procedure `receive_purchase_order`). -/
def addProductStock (s : Store) (pid : String) (q : Int) : Store :=
  { s with products := s.products.map (fun p => if p.id == pid then { p with stock := p.stock + q } else p) }

/-- INSERT INTO stock_movements.  The product foreign key is satisfied at
every call site in the engine (the moved product was just looked up or is
referenced by an existing line item), so the insert is embedded as total. -/
def appendMovement (s : Store) (m : StockMovement) : Store :=
  { s with stock_movements := s.stock_movements ++ [m] }

/-- UPDATE po_line_items SET received_qty = v WHERE id = liId. -/
def setLineItemReceivedQty (s : Store) (liId : String) (v : Int) : Store :=
  { s with po_line_items := s.po_line_items.map (fun li => if li.id == liId then { li with received_qty := v } else li) }

/-- UPDATE purchase_orders SET status = st -- and, when d = some day,
received_date = day -- WHERE id = poId, ignoring the CHECK constraint
(used to embed statements whose status value is a literal that satisfies
the constraint). -/
def setPOStatusDate (s : Store) (poId st : String) (d : Option String) : Store :=
  { s with purchase_orders := s.purchase_orders.map (fun po =>
      if po.id == poId then
        { po with status := st,
                  received_date := match d with | some day => some day | none => po.received_date }
      else po) }

/-- UPDATE purchase_orders SET status = st ... WHERE id = poId as executed
by the database: when st violates the CHECK constraint of `schema.sql` the
statement fails and the row is left unchanged; otherwise it succeeds. -/
def dbUpdatePOStatus (s : Store) (poId st : String) (d : Option String) : Store × Option String :=
  if validStatus st then (setPOStatusDate s poId st d, none)
  else (s, some errStatusCheckViolation)

/-- One entry of the `receivedItems` argument of `partialReceivePO`:
line_item_id, product_id, received_qty (the delta to apply). -/
structure ReceivedItem where
  line_item_id : String
  product_id : String
  received_qty : Int
  deriving Repr, DecidableEq

/-- The per-item loop of `partialReceivePO` (data.ts lines 533-565): for
each entry with a positive delta, fetch the line item (throwing when the
id is unknown), set received_qty to the previous value plus the delta,
fetch the product (throwing when unknown), set its stock to stock + delta,
and insert one movement (whose error the source ignores).  A throw exits
the loop, keeping the mutations already made. -/
def processReceivedItems (s : Store) (poId : String) : List ReceivedItem → Store × Option String
  | [] => (s, none)
  | item :: rest =>
    if item.received_qty ≤ 0 then processReceivedItems s poId rest
    else
      match findLineItem? s item.line_item_id with
      | none => (s, some errLineItemNotFound)
      | some lineItem =>
        let newReceivedQty := lineItem.received_qty + item.received_qty
        let s1 := setLineItemReceivedQty s item.line_item_id newReceivedQty
        match findProduct? s1 item.product_id with
        | none => (s1, some errProductNotFound)
        | some product =>
          let s2 := setProductStock s1 item.product_id (product.stock + item.received_qty)
          let s3 := appendMovement s2
            { product_id := item.product_id, movement_type := movementIn,
              quantity := item.received_qty, reference := refPartialReceive,
              notes := notesPartialReceiveFrom ++ poId }
          processReceivedItems s3 poId rest

/-- `partialReceivePO(poId, receivedItems)` from data.ts lines 528-591:
runs the per-item loop, then reads every line item of the PO and checks
whether all have received_qty >= quantity; if so it sets status "received"
and received_date = today, otherwise it attempts to set status
"partially_received" -- a value the schema CHECK rejects; the source does
not check either update's error, so a constraint failure is silently
dropped.  `today` stands for new Date().toISOString().split("T")[0]. -/
def partialReceivePO (s : Store) (today poId : String) (receivedItems : List ReceivedItem) :
    Store × Option String :=
  match processReceivedItems s poId receivedItems with
  | (s1, some e) => (s1, some e)
  | (s1, none) =>
    let allItems := s1.po_line_items.filter (fun li => li.po_id == poId)
    let allFullyReceived := allItems.all (fun li => li.received_qty ≥ li.quantity)
    if allFullyReceived then
      ((dbUpdatePOStatus s1 poId statusReceived (some today)).fst, none)
    else
      ((dbUpdatePOStatus s1 poId statusPartiallyReceived none).fst, none)

/-- The loop body of the stored procedure `receive_purchase_order` from
schema.sql lines 154-166: for one line item (joined with the PO row for
its po_number) it adds the line's full `quantity` to the product's stock
and inserts one movement for that full quantity. -/
def receiveLoopStep (po : PurchaseOrder) (acc : Store) (li : POLineItem) : Store :=
  appendMovement (addProductStock acc li.product_id li.quantity)
    { product_id := li.product_id, movement_type := movementIn,
      quantity := li.quantity, reference := po.po_number,
      notes := notesReceivedFromPO ++ po.po_number }

/-- The stored procedure `receive_purchase_order(p_po_id)` from schema.sql
lines 148-171, continued: iterates `receiveLoopStep` over the PO's line
items (the join with `purchase_orders` yields no rows when the PO id does
not exist), then sets the PO's status to 'received' and received_date to
the current date.  It never reads or writes `received_qty` and performs
no status guard.  The whole procedure runs in one transaction, hence a
total function. -/
def receive_purchase_order (s : Store) (today poId : String) : Store :=
  let s1 :=
    match findPO? s poId with
    | none => s
    | some po =>
      (s.po_line_items.filter (fun li => li.po_id == poId)).foldl (receiveLoopStep po) s
  setPOStatusDate s1 poId statusReceived (some today)

/-- `receivePurchaseOrder(poId)` from data.ts lines 340-345: a bare rpc
call to the stored procedure.  The procedure raises no errors on stores
satisfying the schema's foreign keys, so the wrapper returns no error. -/
def receivePurchaseOrder (s : Store) (today poId : String) : Store × Option String :=
  (receive_purchase_order s today poId, none)

/-- The empty-string default used by `po.notes || ""`. -/
def emptyString : String := ""

/-- Separator used to model the database-generated ids of inserted
line-item rows (row i of a PO gets id poRowId ++ "-li-" ++ i). -/
def liIdSep : String := "-li-"

/-- Modelled database-generated id of the i-th inserted line-item row. -/
def liIdFor (poRowId : String) (i : Nat) : String :=
  poRowId ++ liIdSep ++ Nat.repr i

/-- The `po` argument of `createPurchaseOrder` (a Partial of the
PurchaseOrder row: only the fields the function reads). -/
structure POInput where
  po_number : String
  supplier_id : Option String
  status : Option String
  expected_date : Option String
  notes : Option String
  deriving Repr, DecidableEq

/-- One entry of the `lineItems` argument of `createPurchaseOrder` /
`updatePurchaseOrder`. -/
structure NewLineItem where
  product_id : String
  quantity : Int
  unit_cost : Rat
  deriving Repr, DecidableEq

/-- The line-item rows built by `lineItems.map(...)` in
`createPurchaseOrder` / `updatePurchaseOrder`: po_id is the owning PO's
id, received_qty is initialised to 0, and the database-generated row ids
are modelled by `liIdFor`. -/
def mkLineItemRows (poRowId : String) : Nat → List NewLineItem → List POLineItem
  | _, [] => []
  | i, item :: rest =>
    { id := liIdFor poRowId i, po_id := poRowId, product_id := item.product_id,
      quantity := item.quantity, unit_cost := item.unit_cost, received_qty := 0 }
      :: mkLineItemRows poRowId (i + 1) rest

/-- INSERT INTO po_line_items of a batch of rows: a single multi-row SQL
insert, hence all-or-nothing; it fails (foreign key violation) exactly
when some row's product_id does not exist in `products`. -/
def insertLineItems (s : Store) (rows : List POLineItem) : Store × Option String :=
  if rows.all (fun r => (findProduct? s r.product_id).isSome) then
    ({ s with po_line_items := s.po_line_items ++ rows }, none)
  else (s, some errForeignKeyViolation)

/-- The total Σ quantity × unit_cost computed by
`lineItems.reduce((s, i) => s + i.quantity * i.unit_cost, 0)`. -/
def lineItemsTotal (lineItems : List NewLineItem) : Rat :=
  lineItems.foldl (fun acc i => acc + (i.quantity : Rat) * i.unit_cost) 0

/-- `createPurchaseOrder(po, lineItems)` from data.ts lines 297-330:
computes the cached total, inserts the PO header row (status defaulted to
"draft", notes to ""), then inserts the line-item rows with received_qty
0; a line-items insert failure is thrown WITHOUT removing the already
inserted header row.  `newId` stands for the database-generated PO id. -/
def createPurchaseOrder (s : Store) (newId : String) (po : POInput)
    (lineItems : List NewLineItem) : Store × Except String PurchaseOrder :=
  let totalAmount := lineItemsTotal lineItems
  let poRow : PurchaseOrder :=
    { id := newId, po_number := po.po_number, supplier_id := po.supplier_id,
      status := po.status.getD statusDraft, expected_date := po.expected_date,
      received_date := none, notes := po.notes.getD emptyString,
      total_amount := totalAmount }
  let s1 := { s with purchase_orders := s.purchase_orders ++ [poRow] }
  match insertLineItems s1 (mkLineItemRows newId 0 lineItems) with
  | (s2, none) => (s2, Except.ok poRow)
  | (s2, some e) => (s2, Except.error e)

/-- `deletePurchaseOrder(poId)` from data.ts lines 347-354: deletes the
PO's line items, then the header row; there is no status guard of any
kind, and neither delete can fail. -/
def deletePurchaseOrder (s : Store) (poId : String) : Store × Option String :=
  let s1 := { s with po_line_items := s.po_line_items.filter (fun li => !(li.po_id == poId)) }
  let s2 := { s1 with purchase_orders := s1.purchase_orders.filter (fun po => !(po.id == poId)) }
  (s2, none)

/-- The `updates` argument of `updatePurchaseOrder`: each field is
optional (absent fields are not written).  expected_date can itself be
set to null, hence the nested Option. -/
structure POUpdates where
  supplier_id : Option String
  expected_date : Option (Option String)
  notes : Option String
  total_amount : Option Rat
  deriving Repr, DecidableEq

/-- UPDATE purchase_orders SET (the supplied fields) WHERE id = poId. -/
def applyPOUpdates (s : Store) (poId : String) (u : POUpdates) : Store :=
  { s with purchase_orders := s.purchase_orders.map (fun po =>
      if po.id == poId then
        { po with
            supplier_id := match u.supplier_id with | some v => some v | none => po.supplier_id,
            expected_date := u.expected_date.getD po.expected_date,
            notes := u.notes.getD po.notes,
            total_amount := u.total_amount.getD po.total_amount }
      else po) }

/-- `updatePurchaseOrder(id, updates, newLineItems?)` from data.ts lines
356-382: updates the header fields; when a replacement line-item list is
supplied it deletes ALL existing line items of the PO and inserts the new
rows with received_qty reset to 0.  Product stock and the movement log
are never touched. -/
def updatePurchaseOrder (s : Store) (poId : String) (updates : POUpdates)
    (newLineItems : Option (List NewLineItem)) : Store × Option String :=
  let s1 := applyPOUpdates s poId updates
  match newLineItems with
  | none => (s1, none)
  | some lineItems =>
    let s2 := { s1 with po_line_items := s1.po_line_items.filter (fun li => !(li.po_id == poId)) }
    insertLineItems s2 (mkLineItemRows poId 0 lineItems)

/-- The leading digit run of a character list (the `(\d+)` capture of the
regex `^PO-(\d+)` applied after the prefix). -/
def leadingDigits : List Char → List Char
  | [] => []
  | c :: rest => if c.isDigit then c :: leadingDigits rest else []

/-- Decimal value of a digit run (`parseInt(match[1], 10)`). -/
def digitsToNat (ds : List Char) : Nat :=
  ds.foldl (fun acc c => 10 * acc + (c.toNat - 48)) 0

/-- The regex match `po_number.match(/^PO-(\d+)/)` of `getNextPONumber`:
the number must start with "PO-" in exact case followed by at least one
digit; the value is the leading digit run parsed as decimal. -/
def poNumericSuffix? (num : String) : Option Nat :=
  if num.toList.take 3 == strPO.toList then
    let ds := leadingDigits (num.toList.drop 3)
    if ds.isEmpty then none else some (digitsToNat ds)
  else none

/-- ASCII case folding on character codes (upper-case letters mapped to
their lower-case code), used to embed case-insensitive matching. -/
def charLowerNat (c : Char) : Nat :=
  if 65 ≤ c.toNat ∧ c.toNat ≤ 90 then c.toNat + 32 else c.toNat

/-- Case-insensitive prefix test: s starts with the given characters up
to case folding. -/
def startsWithCI (s : String) (pre : List Char) : Bool :=
  (s.toList.take pre.length).map charLowerNat == pre.map charLowerNat

/-- The case-insensitive filter `ilike("po_number", "PO-%")`. -/
def ilikePoDash (num : String) : Bool :=
  startsWithCI num strPoLower.toList

/-- The fold `if (num > maxNum) maxNum = num` of `getNextPONumber`,
starting from 0 and skipping numbers the regex does not match. -/
def maxPONumFold (data : List PurchaseOrder) (init : Nat) : Nat :=
  data.foldl (fun m po =>
    match poNumericSuffix? po.po_number with
    | some n => if n > m then n else m
    | none => m) init

/-- `getNextPONumber()` from data.ts lines 265-286: selects po_number of
POs matching 'PO-%' case-insensitively, ordered by created_at descending,
LIMIT 500 (embedded as reverse-then-take-500 of the filtered
insertion-ordered list); returns "PO-1001" when no row matches, else
"PO-" followed by one plus the largest leading digit run among the
fetched numbers. -/
def getNextPONumber (s : Store) : String :=
  let data := ((s.purchase_orders.filter (fun po => ilikePoDash po.po_number)).reverse).take 500
  if data.isEmpty then defaultPONumber
  else strPO ++ Nat.repr (maxPONumFold data 0 + 1)

/-! Concrete stores used to evaluate the operations at specific inputs.
Each claim gets its own rows so that the stores can be read off
independently. -/

/-- Example date string. -/
def day1 : String := "2025-06-01"

/-- A second example date string. -/
def day2 : String := "2025-06-02"

/-- C1 failing input: a product with zero stock. -/
def c1Prod : Product := { id := "c1-p1", stock := 0 }

/-- C1 failing input: an ordered PO. -/
def c1PO : PurchaseOrder :=
  { id := "c1-o1", po_number := "PO-1001", supplier_id := none, status := statusOrdered,
    expected_date := none, received_date := none, notes := emptyString, total_amount := 20 }

/-- C1 failing input: one line item of the PO, 10 ordered, none received. -/
def c1Li : POLineItem :=
  { id := "c1-l1", po_id := "c1-o1", product_id := "c1-p1", quantity := 10,
    unit_cost := 2, received_qty := 0 }

/-- C1 failing input: the store before the partial receive. -/
def c1Store : Store :=
  { products := [c1Prod], purchase_orders := [c1PO], po_line_items := [c1Li],
    stock_movements := [] }

/-- C1 failing input: two entries, the first valid (receive 4 of line
c1-l1), the second naming a line-item id that does not exist. -/
def c1Items : List ReceivedItem :=
  [ { line_item_id := "c1-l1", product_id := "c1-p1", received_qty := 4 },
    { line_item_id := "c1-missing", product_id := "c1-p1", received_qty := 1 } ]

/-- The state `partialReceivePO` actually leaves behind on the C1 failing
input: the first entry's line-item update, stock increment and movement
are all retained although the operation as a whole failed. -/
def c1AfterStore : Store :=
  { products := [{ id := "c1-p1", stock := 4 }],
    purchase_orders := [c1PO],
    po_line_items := [{ id := "c1-l1", po_id := "c1-o1", product_id := "c1-p1",
                        quantity := 10, unit_cost := 2, received_qty := 4 }],
    stock_movements := [{ product_id := "c1-p1", movement_type := movementIn,
                          quantity := 4, reference := refPartialReceive,
                          notes := notesPartialReceiveFrom ++ "c1-o1" }] }

/-- C2 failing input: a product whose stock already includes 4 units
received earlier through a partial receive. -/
def c2Prod : Product := { id := "c2-p1", stock := 4 }

/-- C2 failing input: the PO (still in status ordered after the earlier
partial receive, since the partial-status write is rejected by the
schema, see C3). -/
def c2PO : PurchaseOrder :=
  { id := "c2-o1", po_number := "PO-1002", supplier_id := none, status := statusOrdered,
    expected_date := none, received_date := none, notes := emptyString, total_amount := 20 }

/-- C2 failing input: line item with 10 ordered and 4 already received. -/
def c2Li : POLineItem :=
  { id := "c2-l1", po_id := "c2-o1", product_id := "c2-p1", quantity := 10,
    unit_cost := 2, received_qty := 4 }

/-- C2 failing input: the prior partial-receive movement of 4 units. -/
def c2PriorMovement : StockMovement :=
  { product_id := "c2-p1", movement_type := movementIn, quantity := 4,
    reference := refPartialReceive, notes := notesPartialReceiveFrom ++ "c2-o1" }

/-- C2 failing input: the store before Receive All. -/
def c2Store : Store :=
  { products := [c2Prod], purchase_orders := [c2PO], po_line_items := [c2Li],
    stock_movements := [c2PriorMovement] }

/-- The state `receive_purchase_order` actually produces on the C2
failing input: stock is credited the full ordered quantity 10 on top of
the 4 already-received units (stock 14, not 10), the movement logs 10
(not the outstanding 6), and received_qty is left at 4. -/
def c2AfterStore : Store :=
  { products := [{ id := "c2-p1", stock := 14 }],
    purchase_orders := [{ id := "c2-o1", po_number := "PO-1002", supplier_id := none,
                          status := statusReceived, expected_date := none,
                          received_date := some day2, notes := emptyString,
                          total_amount := 20 }],
    po_line_items := [c2Li],
    stock_movements := [c2PriorMovement,
      { product_id := "c2-p1", movement_type := movementIn, quantity := 10,
        reference := "PO-1002", notes := notesReceivedFromPO ++ "PO-1002" }] }

/-- C3 failing input: a product with zero stock. -/
def c3Prod : Product := { id := "c3-p1", stock := 0 }

/-- C3 failing input: an ordered PO with two line items. -/
def c3PO : PurchaseOrder :=
  { id := "c3-o1", po_number := "PO-1003", supplier_id := none, status := statusOrdered,
    expected_date := none, received_date := none, notes := emptyString, total_amount := 25 }

/-- C3 failing input: first line item, 10 ordered. -/
def c3Li1 : POLineItem :=
  { id := "c3-l1", po_id := "c3-o1", product_id := "c3-p1", quantity := 10,
    unit_cost := 2, received_qty := 0 }

/-- C3 failing input: second line item, 5 ordered. -/
def c3Li2 : POLineItem :=
  { id := "c3-l2", po_id := "c3-o1", product_id := "c3-p1", quantity := 5,
    unit_cost := 1, received_qty := 0 }

/-- C3 failing input: the store before the partial receive. -/
def c3Store : Store :=
  { products := [c3Prod], purchase_orders := [c3PO], po_line_items := [c3Li1, c3Li2],
    stock_movements := [] }

/-- C3 failing input: receive 4 of the first line item (incomplete). -/
def c3Items : List ReceivedItem :=
  [ { line_item_id := "c3-l1", product_id := "c3-p1", received_qty := 4 } ]

/-- C4 counterexample: a product with zero stock. -/
def c4Prod : Product := { id := "c4-p1", stock := 0 }

/-- C4 counterexample: an ordered PO. -/
def c4PO : PurchaseOrder :=
  { id := "c4-o1", po_number := "PO-1004", supplier_id := none, status := statusOrdered,
    expected_date := none, received_date := none, notes := emptyString, total_amount := 10 }

/-- C4 counterexample: a line item with 5 ordered, none received. -/
def c4Li : POLineItem :=
  { id := "c4-l1", po_id := "c4-o1", product_id := "c4-p1", quantity := 5,
    unit_cost := 2, received_qty := 0 }

/-- C4 counterexample: the store before the over-receipt. -/
def c4Store : Store :=
  { products := [c4Prod], purchase_orders := [c4PO], po_line_items := [c4Li],
    stock_movements := [] }

/-- C4 counterexample: a single entry with delta 7 on a line item whose
ordered quantity is only 5. -/
def c4Items : List ReceivedItem :=
  [ { line_item_id := "c4-l1", product_id := "c4-p1", received_qty := 7 } ]

/-- C4 witness rows: a separate line item with 10 ordered, 2 received. -/
def c4wLi : POLineItem :=
  { id := "c4w-l1", po_id := "c4w-o1", product_id := "c4w-p1", quantity := 10,
    unit_cost := 1, received_qty := 2 }

/-- C4 witness store. -/
def c4wStore : Store :=
  { products := [{ id := "c4w-p1", stock := 2 }],
    purchase_orders := [{ id := "c4w-o1", po_number := "PO-1014", supplier_id := none,
                          status := statusOrdered, expected_date := none,
                          received_date := none, notes := emptyString, total_amount := 10 }],
    po_line_items := [c4wLi], stock_movements := [] }

/-- C4 witness entry: delta 3 on the witness line item. -/
def c4wItem : ReceivedItem :=
  { line_item_id := "c4w-l1", product_id := "c4w-p1", received_qty := 3 }

/-- C5 failing input: the only existing product. -/
def c5Prod : Product := { id := "c5-p1", stock := 0 }

/-- C5 failing input: the store before the creation (one product, no POs). -/
def c5Store : Store :=
  { products := [c5Prod], purchase_orders := [], po_line_items := [], stock_movements := [] }

/-- C5 failing input: the header fields of the PO being created. -/
def c5Input : POInput :=
  { po_number := "PO-1005", supplier_id := none, status := some statusOrdered,
    expected_date := none, notes := none }

/-- C5 failing input: two line items, the second referencing a product id
that does not exist. -/
def c5Items : List NewLineItem :=
  [ { product_id := "c5-p1", quantity := 2, unit_cost := 3 },
    { product_id := "c5-missing", quantity := 1, unit_cost := 2 } ]

/-- The id the database would generate for the C5 header row. -/
def c5NewId : String := "c5-o1"

/-- C6 counterexample: the product after an earlier full receive of 10. -/
def c6Prod : Product := { id := "c6-p1", stock := 10 }

/-- C6 counterexample: a PO that is already received. -/
def c6PO : PurchaseOrder :=
  { id := "c6-o1", po_number := "PO-1006", supplier_id := none, status := statusReceived,
    expected_date := none, received_date := some day1, notes := emptyString, total_amount := 20 }

/-- C6 counterexample: the PO's line item (received_qty 0 because the
stored procedure never writes received_qty, see C2). -/
def c6Li : POLineItem :=
  { id := "c6-l1", po_id := "c6-o1", product_id := "c6-p1", quantity := 10,
    unit_cost := 2, received_qty := 0 }

/-- C6 counterexample: the movement logged by the earlier receive. -/
def c6PriorMovement : StockMovement :=
  { product_id := "c6-p1", movement_type := movementIn, quantity := 10,
    reference := "PO-1006", notes := notesReceivedFromPO ++ "PO-1006" }

/-- C6 counterexample: the store holding the already-received PO. -/
def c6Store : Store :=
  { products := [c6Prod], purchase_orders := [c6PO], po_line_items := [c6Li],
    stock_movements := [c6PriorMovement] }

/-- The state the second receive actually produces on the C6 store: no
error, stock doubled to 20, a duplicate movement, received_date moved. -/
def c6AfterStore : Store :=
  { products := [{ id := "c6-p1", stock := 20 }],
    purchase_orders := [{ id := "c6-o1", po_number := "PO-1006", supplier_id := none,
                          status := statusReceived, expected_date := none,
                          received_date := some day2, notes := emptyString,
                          total_amount := 20 }],
    po_line_items := [c6Li],
    stock_movements := [c6PriorMovement, c6PriorMovement] }

/-- C7 counterexample: a product. -/
def c7Prod : Product := { id := "c7-p1", stock := 10 }

/-- C7 counterexample: a received PO. -/
def c7PO : PurchaseOrder :=
  { id := "c7-o1", po_number := "PO-1007", supplier_id := none, status := statusReceived,
    expected_date := none, received_date := some day1, notes := emptyString, total_amount := 20 }

/-- C7 counterexample: the received PO's line item. -/
def c7Li : POLineItem :=
  { id := "c7-l1", po_id := "c7-o1", product_id := "c7-p1", quantity := 10,
    unit_cost := 2, received_qty := 0 }

/-- C7 counterexample: the movement logged when the PO was received. -/
def c7Movement : StockMovement :=
  { product_id := "c7-p1", movement_type := movementIn, quantity := 10,
    reference := "PO-1007", notes := notesReceivedFromPO ++ "PO-1007" }

/-- C7 counterexample: the store holding the received PO. -/
def c7Store : Store :=
  { products := [c7Prod], purchase_orders := [c7PO], po_line_items := [c7Li],
    stock_movements := [c7Movement] }

/-- The error component of an Except result (some on error, none on
success), used to state error equalities decidably. -/
def exceptErr? : Except String PurchaseOrder → Option String
  | Except.error e => some e
  | Except.ok _ => none

/-- Helper to build a minimal ordered PO row with a given number (used
for the PO-number-generator stores, where only po_number and insertion
order matter). -/
def mkNumberedPO (n : String) : PurchaseOrder :=
  { id := n, po_number := n, supplier_id := none, status := statusOrdered,
    expected_date := none, received_date := none, notes := emptyString, total_amount := 0 }

/-- The spec's scenario numbers "PO-1001", "PO-1002", "PO-99". -/
def c8ScenarioNums : List String := ["PO-1001", "PO-1002", "PO-99"]

/-- The spec's scenario store for the PO-number generator. -/
def c8ScenarioStore : Store :=
  { products := [], purchase_orders := c8ScenarioNums.map mkNumberedPO,
    po_line_items := [], stock_movements := [] }

/-- The expected scenario result "PO-1003". -/
def strPO1003 : String := "PO-1003"

/-- The number "PO-9999" of the oldest PO of the C8 counterexample store. -/
def strPO9999 : String := "PO-9999"

/-- The result "PO-501" the generator actually returns on the C8
counterexample store. -/
def strPO501 : String := "PO-501"

/-- The result "PO-10000" the claim predicts on the C8 counterexample
store (max over ALL numbers is 9999). -/
def strPO10000 : String := "PO-10000"

/-- Counterexample filler numbers "PO-1" .. "PO-125". -/
def c8NumsA : List String := [
  "PO-1",
  "PO-2",
  "PO-3",
  "PO-4",
  "PO-5",
  "PO-6",
  "PO-7",
  "PO-8",
  "PO-9",
  "PO-10",
  "PO-11",
  "PO-12",
  "PO-13",
  "PO-14",
  "PO-15",
  "PO-16",
  "PO-17",
  "PO-18",
  "PO-19",
  "PO-20",
  "PO-21",
  "PO-22",
  "PO-23",
  "PO-24",
  "PO-25",
  "PO-26",
  "PO-27",
  "PO-28",
  "PO-29",
  "PO-30",
  "PO-31",
  "PO-32",
  "PO-33",
  "PO-34",
  "PO-35",
  "PO-36",
  "PO-37",
  "PO-38",
  "PO-39",
  "PO-40",
  "PO-41",
  "PO-42",
  "PO-43",
  "PO-44",
  "PO-45",
  "PO-46",
  "PO-47",
  "PO-48",
  "PO-49",
  "PO-50",
  "PO-51",
  "PO-52",
  "PO-53",
  "PO-54",
  "PO-55",
  "PO-56",
  "PO-57",
  "PO-58",
  "PO-59",
  "PO-60",
  "PO-61",
  "PO-62",
  "PO-63",
  "PO-64",
  "PO-65",
  "PO-66",
  "PO-67",
  "PO-68",
  "PO-69",
  "PO-70",
  "PO-71",
  "PO-72",
  "PO-73",
  "PO-74",
  "PO-75",
  "PO-76",
  "PO-77",
  "PO-78",
  "PO-79",
  "PO-80",
  "PO-81",
  "PO-82",
  "PO-83",
  "PO-84",
  "PO-85",
  "PO-86",
  "PO-87",
  "PO-88",
  "PO-89",
  "PO-90",
  "PO-91",
  "PO-92",
  "PO-93",
  "PO-94",
  "PO-95",
  "PO-96",
  "PO-97",
  "PO-98",
  "PO-99",
  "PO-100",
  "PO-101",
  "PO-102",
  "PO-103",
  "PO-104",
  "PO-105",
  "PO-106",
  "PO-107",
  "PO-108",
  "PO-109",
  "PO-110",
  "PO-111",
  "PO-112",
  "PO-113",
  "PO-114",
  "PO-115",
  "PO-116",
  "PO-117",
  "PO-118",
  "PO-119",
  "PO-120",
  "PO-121",
  "PO-122",
  "PO-123",
  "PO-124",
  "PO-125"]

/-- Counterexample filler numbers "PO-126" .. "PO-250". -/
def c8NumsB : List String := [
  "PO-126",
  "PO-127",
  "PO-128",
  "PO-129",
  "PO-130",
  "PO-131",
  "PO-132",
  "PO-133",
  "PO-134",
  "PO-135",
  "PO-136",
  "PO-137",
  "PO-138",
  "PO-139",
  "PO-140",
  "PO-141",
  "PO-142",
  "PO-143",
  "PO-144",
  "PO-145",
  "PO-146",
  "PO-147",
  "PO-148",
  "PO-149",
  "PO-150",
  "PO-151",
  "PO-152",
  "PO-153",
  "PO-154",
  "PO-155",
  "PO-156",
  "PO-157",
  "PO-158",
  "PO-159",
  "PO-160",
  "PO-161",
  "PO-162",
  "PO-163",
  "PO-164",
  "PO-165",
  "PO-166",
  "PO-167",
  "PO-168",
  "PO-169",
  "PO-170",
  "PO-171",
  "PO-172",
  "PO-173",
  "PO-174",
  "PO-175",
  "PO-176",
  "PO-177",
  "PO-178",
  "PO-179",
  "PO-180",
  "PO-181",
  "PO-182",
  "PO-183",
  "PO-184",
  "PO-185",
  "PO-186",
  "PO-187",
  "PO-188",
  "PO-189",
  "PO-190",
  "PO-191",
  "PO-192",
  "PO-193",
  "PO-194",
  "PO-195",
  "PO-196",
  "PO-197",
  "PO-198",
  "PO-199",
  "PO-200",
  "PO-201",
  "PO-202",
  "PO-203",
  "PO-204",
  "PO-205",
  "PO-206",
  "PO-207",
  "PO-208",
  "PO-209",
  "PO-210",
  "PO-211",
  "PO-212",
  "PO-213",
  "PO-214",
  "PO-215",
  "PO-216",
  "PO-217",
  "PO-218",
  "PO-219",
  "PO-220",
  "PO-221",
  "PO-222",
  "PO-223",
  "PO-224",
  "PO-225",
  "PO-226",
  "PO-227",
  "PO-228",
  "PO-229",
  "PO-230",
  "PO-231",
  "PO-232",
  "PO-233",
  "PO-234",
  "PO-235",
  "PO-236",
  "PO-237",
  "PO-238",
  "PO-239",
  "PO-240",
  "PO-241",
  "PO-242",
  "PO-243",
  "PO-244",
  "PO-245",
  "PO-246",
  "PO-247",
  "PO-248",
  "PO-249",
  "PO-250"]

/-- Counterexample filler numbers "PO-251" .. "PO-375". -/
def c8NumsC : List String := [
  "PO-251",
  "PO-252",
  "PO-253",
  "PO-254",
  "PO-255",
  "PO-256",
  "PO-257",
  "PO-258",
  "PO-259",
  "PO-260",
  "PO-261",
  "PO-262",
  "PO-263",
  "PO-264",
  "PO-265",
  "PO-266",
  "PO-267",
  "PO-268",
  "PO-269",
  "PO-270",
  "PO-271",
  "PO-272",
  "PO-273",
  "PO-274",
  "PO-275",
  "PO-276",
  "PO-277",
  "PO-278",
  "PO-279",
  "PO-280",
  "PO-281",
  "PO-282",
  "PO-283",
  "PO-284",
  "PO-285",
  "PO-286",
  "PO-287",
  "PO-288",
  "PO-289",
  "PO-290",
  "PO-291",
  "PO-292",
  "PO-293",
  "PO-294",
  "PO-295",
  "PO-296",
  "PO-297",
  "PO-298",
  "PO-299",
  "PO-300",
  "PO-301",
  "PO-302",
  "PO-303",
  "PO-304",
  "PO-305",
  "PO-306",
  "PO-307",
  "PO-308",
  "PO-309",
  "PO-310",
  "PO-311",
  "PO-312",
  "PO-313",
  "PO-314",
  "PO-315",
  "PO-316",
  "PO-317",
  "PO-318",
  "PO-319",
  "PO-320",
  "PO-321",
  "PO-322",
  "PO-323",
  "PO-324",
  "PO-325",
  "PO-326",
  "PO-327",
  "PO-328",
  "PO-329",
  "PO-330",
  "PO-331",
  "PO-332",
  "PO-333",
  "PO-334",
  "PO-335",
  "PO-336",
  "PO-337",
  "PO-338",
  "PO-339",
  "PO-340",
  "PO-341",
  "PO-342",
  "PO-343",
  "PO-344",
  "PO-345",
  "PO-346",
  "PO-347",
  "PO-348",
  "PO-349",
  "PO-350",
  "PO-351",
  "PO-352",
  "PO-353",
  "PO-354",
  "PO-355",
  "PO-356",
  "PO-357",
  "PO-358",
  "PO-359",
  "PO-360",
  "PO-361",
  "PO-362",
  "PO-363",
  "PO-364",
  "PO-365",
  "PO-366",
  "PO-367",
  "PO-368",
  "PO-369",
  "PO-370",
  "PO-371",
  "PO-372",
  "PO-373",
  "PO-374",
  "PO-375"]

/-- Counterexample filler numbers "PO-376" .. "PO-500". -/
def c8NumsD : List String := [
  "PO-376",
  "PO-377",
  "PO-378",
  "PO-379",
  "PO-380",
  "PO-381",
  "PO-382",
  "PO-383",
  "PO-384",
  "PO-385",
  "PO-386",
  "PO-387",
  "PO-388",
  "PO-389",
  "PO-390",
  "PO-391",
  "PO-392",
  "PO-393",
  "PO-394",
  "PO-395",
  "PO-396",
  "PO-397",
  "PO-398",
  "PO-399",
  "PO-400",
  "PO-401",
  "PO-402",
  "PO-403",
  "PO-404",
  "PO-405",
  "PO-406",
  "PO-407",
  "PO-408",
  "PO-409",
  "PO-410",
  "PO-411",
  "PO-412",
  "PO-413",
  "PO-414",
  "PO-415",
  "PO-416",
  "PO-417",
  "PO-418",
  "PO-419",
  "PO-420",
  "PO-421",
  "PO-422",
  "PO-423",
  "PO-424",
  "PO-425",
  "PO-426",
  "PO-427",
  "PO-428",
  "PO-429",
  "PO-430",
  "PO-431",
  "PO-432",
  "PO-433",
  "PO-434",
  "PO-435",
  "PO-436",
  "PO-437",
  "PO-438",
  "PO-439",
  "PO-440",
  "PO-441",
  "PO-442",
  "PO-443",
  "PO-444",
  "PO-445",
  "PO-446",
  "PO-447",
  "PO-448",
  "PO-449",
  "PO-450",
  "PO-451",
  "PO-452",
  "PO-453",
  "PO-454",
  "PO-455",
  "PO-456",
  "PO-457",
  "PO-458",
  "PO-459",
  "PO-460",
  "PO-461",
  "PO-462",
  "PO-463",
  "PO-464",
  "PO-465",
  "PO-466",
  "PO-467",
  "PO-468",
  "PO-469",
  "PO-470",
  "PO-471",
  "PO-472",
  "PO-473",
  "PO-474",
  "PO-475",
  "PO-476",
  "PO-477",
  "PO-478",
  "PO-479",
  "PO-480",
  "PO-481",
  "PO-482",
  "PO-483",
  "PO-484",
  "PO-485",
  "PO-486",
  "PO-487",
  "PO-488",
  "PO-489",
  "PO-490",
  "PO-491",
  "PO-492",
  "PO-493",
  "PO-494",
  "PO-495",
  "PO-496",
  "PO-497",
  "PO-498",
  "PO-499",
  "PO-500"]

/-- The 500 filler numbers, newest last. -/
def c8FillerNums : List String := c8NumsA ++ c8NumsB ++ c8NumsC ++ c8NumsD

/-- The C8 counterexample store: the OLDEST po carries the largest number
"PO-9999"; the 500 newer POs carry "PO-1" .. "PO-500".  The generator's
LIMIT 500 window (newest first) excludes "PO-9999". -/
def c8BigStore : Store :=
  { products := [],
    purchase_orders := mkNumberedPO strPO9999 :: c8FillerNums.map mkNumberedPO,
    po_line_items := [], stock_movements := [] }

/-- The numeric value `getNextPONumber` extracts from one PO row: the
leading digit run when the regex matches, else 0 (the fold skips the row,
which is the same as taking max with 0). -/
def poSuffixVal (po : PurchaseOrder) : Nat :=
  (poNumericSuffix? po.po_number).getD 0

/-- C9 witness: a store with two products. -/
def c9Store : Store :=
  { products := [{ id := "c9-p1", stock := 5 }, { id := "c9-p2", stock := 0 }],
    purchase_orders := [], po_line_items := [], stock_movements := [] }

/-- C9 witness: the header fields of the PO being created. -/
def c9Input : POInput :=
  { po_number := "PO-1009", supplier_id := some "c9-s1", status := some statusOrdered,
    expected_date := some day1, notes := none }

/-- C9 witness: two line items (2 x 3 and 4 x 7, total 34). -/
def c9Items : List NewLineItem :=
  [ { product_id := "c9-p1", quantity := 2, unit_cost := 3 },
    { product_id := "c9-p2", quantity := 4, unit_cost := 7 } ]

/-- The id the database would generate for the C9 header row. -/
def c9NewId : String := "c9-o1"

/-- C10 witness: a store with one partially received PO (line item 3 of 5
received) and one movement. -/
def c10Store : Store :=
  { products := [{ id := "c10-p1", stock := 3 }],
    purchase_orders := [{ id := "c10-o1", po_number := "PO-1010", supplier_id := none,
                          status := statusOrdered, expected_date := none,
                          received_date := none, notes := emptyString, total_amount := 10 }],
    po_line_items := [{ id := "c10-l1", po_id := "c10-o1", product_id := "c10-p1",
                        quantity := 5, unit_cost := 2, received_qty := 3 }],
    stock_movements := [{ product_id := "c10-p1", movement_type := movementIn,
                          quantity := 3, reference := refPartialReceive,
                          notes := notesPartialReceiveFrom ++ "c10-o1" }] }

/-- C10 witness: the id of the edited PO. -/
def c10PoId : String := "c10-o1"

/-- C10 witness: header updates (only the cached total). -/
def c10Updates : POUpdates :=
  { supplier_id := none, expected_date := none, notes := none, total_amount := some 8 }

/-- C10 witness: the replacement line-item list. -/
def c10Items : List NewLineItem :=
  [ { product_id := "c10-p1", quantity := 4, unit_cost := 2 } ]

/-! Theorems.  Each claim's main theorem carries the claim id in its doc
comment. -/

/-- C1: the claim states that a failure partway through a multi-row
receiving operation leaves the whole state unchanged.  The code violates
it: on the C1 failing input (second entry names a nonexistent line item)
`partialReceivePO` throws, but the first entry's line-item update, stock
increment and stock movement are all retained -- the resulting store is
`c1AfterStore`, which differs from the initial `c1Store`. -/
theorem c1_partial_receive_not_atomic :
    partialReceivePO c1Store day1 c1PO.id c1Items = (c1AfterStore, some errLineItemNotFound) ∧
    c1AfterStore ≠ c1Store := by decide

/-- C2: the claim states that Receive All sets every line item's
received_qty to its quantity and credits stock only with the outstanding
quantity (quantity − received_qty).  The stored procedure
`receive_purchase_order` violates it: on the C2 failing input (10
ordered, 4 already received, stock 4) it leaves received_qty at 4, adds
the full quantity 10 to stock (giving 14, not 10), and logs a movement of
10 (not 6); only the status/received_date update matches the claim. -/
theorem c2_receive_all_double_counts :
    receivePurchaseOrder c2Store day2 c2PO.id = (c2AfterStore, none) ∧
    (findLineItem? c2AfterStore c2Li.id).map POLineItem.received_qty = some 4 ∧
    (findProduct? c2AfterStore c2Prod.id).map Product.stock = some 14 ∧
    ¬ (∀ li ∈ (receivePurchaseOrder c2Store day2 c2PO.id).fst.po_line_items,
        li.received_qty = li.quantity) := by decide

/-- C3: the claim states that after an incomplete Partial Receive the
PO's status is "partial".  The code violates it: `partialReceivePO`
writes the status value "partially_received", which the schema CHECK
constraint on purchase_orders.status rejects, and the code ignores the
update's error -- so on the C3 failing input the PO's status silently
remains "ordered". -/
theorem c3_partial_status_rejected_by_schema :
    (partialReceivePO c3Store day1 c3PO.id c3Items).snd = none ∧
    (findPO? (partialReceivePO c3Store day1 c3PO.id c3Items).fst c3PO.id).map
      PurchaseOrder.status = some statusOrdered ∧
    statusOrdered ≠ statusPartialStr ∧
    validStatus statusPartiallyReceived = false := by decide

/-- C4 counterexample: the claim states that received_qty never exceeds
the ordered quantity.  On `c4Store` (5 ordered, 0 received) a Partial
Receive with delta 7 produces received_qty 7 > quantity 5: the code
applies no clamp. -/
theorem c4_counterexample_over_receipt :
    (findLineItem? (partialReceivePO c4Store day1 c4PO.id c4Items).fst c4Li.id).map
      POLineItem.received_qty = some 7 ∧
    ¬ (∀ li ∈ (partialReceivePO c4Store day1 c4PO.id c4Items).fst.po_line_items,
        li.received_qty ≤ li.quantity) := by decide

/-- C5: the claim states that creating a PO whose line items reference a
nonexistent product fails atomically with no header row persisted.  The
code violates it: on the C5 failing input the header insert succeeds,
the line-items insert then fails on the foreign key, the error is thrown
with no rollback, and the orphan header row (with zero line items)
remains in the store. -/
theorem c5_create_po_leaves_orphan_header :
    exceptErr? (createPurchaseOrder c5Store c5NewId c5Input c5Items).snd =
      some errForeignKeyViolation ∧
    (createPurchaseOrder c5Store c5NewId c5Input c5Items).fst.purchase_orders.length = 1 ∧
    (createPurchaseOrder c5Store c5NewId c5Input c5Items).fst.po_line_items = [] := by decide

/-- C6 counterexample: the claim states that receiving an
already-received PO is rejected with an error and leaves the state
unchanged.  On `c6Store` (PO already received, stock 10) a second receive
returns no error, doubles the stock to 20, appends a duplicate movement
and rewrites received_date: there is no status guard at all. -/
theorem c6_counterexample_rereceive_not_rejected :
    receivePurchaseOrder c6Store day2 c6PO.id = (c6AfterStore, none) ∧
    (findProduct? c6AfterStore c6Prod.id).map Product.stock = some 20 ∧
    c6AfterStore ≠ c6Store := by decide

/-- C7 counterexample: the claim states that deleting a PO with status
received fails with an error and leaves everything unchanged.  On
`c7Store` (a received PO) `deletePurchaseOrder` returns no error and
removes both the header and its line items: there is no status guard. -/
theorem c7_counterexample_delete_received_po_succeeds :
    (deletePurchaseOrder c7Store c7PO.id).snd = none ∧
    (deletePurchaseOrder c7Store c7PO.id).fst.purchase_orders = [] ∧
    (deletePurchaseOrder c7Store c7PO.id).fst.po_line_items = [] := by decide

/-- Every row built by `mkLineItemRows` has received_qty 0, carries the
owning PO's id, and takes its product_id from one of the input items. -/
theorem mkLineItemRows_mem :
    ∀ (items : List NewLineItem) (poRowId : String) (i : Nat) (r : POLineItem),
      r ∈ mkLineItemRows poRowId i items →
      r.received_qty = 0 ∧ r.po_id = poRowId ∧ ∃ it ∈ items, r.product_id = it.product_id := by
  intro items
  induction items with
  | nil =>
    intro poRowId i r hr
    simp [mkLineItemRows] at hr
  | cons a l ih =>
    intro poRowId i r hr
    simp only [mkLineItemRows, List.mem_cons] at hr
    rcases hr with h | h
    · subst h
      exact ⟨rfl, rfl, a, List.mem_cons_self a l, rfl⟩
    · rcases ih poRowId (i + 1) r h with ⟨h1, h2, it, hit, h3⟩
      exact ⟨h1, h2, it, List.mem_cons_of_mem a hit, h3⟩

/-- Folding addition of a mapped value equals the initial value plus the
sum of the mapped list. -/
theorem foldl_add_eq_sum (f : NewLineItem → Rat) :
    ∀ (items : List NewLineItem) (a : Rat),
      items.foldl (fun acc i => acc + f i) a = a + (items.map f).sum := by
  intro items
  induction items with
  | nil => intro a; simp
  | cons x l ih =>
    intro a
    simp only [List.foldl_cons, List.map_cons, List.sum_cons]
    rw [ih, add_assoc]

/-- The code's running total equals the claim's Σ quantity × unit_cost. -/
theorem lineItemsTotal_eq_sum (items : List NewLineItem) :
    lineItemsTotal items = (items.map (fun i => (i.quantity : Rat) * i.unit_cost)).sum := by
  unfold lineItemsTotal
  rw [foldl_add_eq_sum]
  exact zero_add _

/-- A left max-fold absorbs an extra operand pushed into its seed. -/
theorem foldl_max_push :
    ∀ (L : List Nat) (a b : Nat), L.foldl max (max a b) = max (L.foldl max a) b := by
  intro L
  induction L with
  | nil => intro a b; rfl
  | cons c L ih =>
    intro a b
    calc (c :: L).foldl max (max a b) = L.foldl max (max (max a b) c) := rfl
      _ = L.foldl max (max (max a c) b) := by
          rw [max_assoc, max_comm b c, ← max_assoc]
      _ = max (L.foldl max (max a c)) b := ih _ _
      _ = max ((c :: L).foldl max a) b := rfl

/-- A left max-fold is invariant under list reversal. -/
theorem foldl_max_reverse :
    ∀ (L : List Nat) (a : Nat), L.reverse.foldl max a = L.foldl max a := by
  intro L
  induction L with
  | nil => intro a; rfl
  | cons c L ih =>
    intro a
    calc (c :: L).reverse.foldl max a = (L.reverse ++ [c]).foldl max a := by
          rw [List.reverse_cons]
      _ = max (L.reverse.foldl max a) c := by rw [List.foldl_append]; rfl
      _ = max (L.foldl max a) c := by rw [ih]
      _ = L.foldl max (max a c) := (foldl_max_push L a c).symm
      _ = (c :: L).foldl max a := rfl

/-- The generator's fold computes a plain max-fold of the extracted
numeric suffixes. -/
theorem maxPONumFold_eq_foldl_max :
    ∀ (l : List PurchaseOrder) (a : Nat),
      maxPONumFold l a = (l.map poSuffixVal).foldl max a := by
  intro l
  induction l with
  | nil => intro a; rfl
  | cons po l ih =>
    intro a
    have hstep :
        (match poNumericSuffix? po.po_number with
          | some n => if n > a then n else a
          | none => a) = max a (poSuffixVal po) := by
      unfold poSuffixVal
      cases h : poNumericSuffix? po.po_number with
      | none => simp
      | some n =>
        simp only [Option.getD_some]
        by_cases hmn : n > a
        · rw [if_pos hmn]
          exact (Nat.max_eq_right (Nat.le_of_lt hmn)).symm
        · rw [if_neg hmn]
          exact (Nat.max_eq_left (Nat.le_of_not_lt hmn)).symm
    calc maxPONumFold (po :: l) a = maxPONumFold l (max a (poSuffixVal po)) := by
          simp only [maxPONumFold, List.foldl_cons, hstep]
      _ = (l.map poSuffixVal).foldl max (max a (poSuffixVal po)) := ih _
      _ = ((po :: l).map poSuffixVal).foldl max a := rfl

/-- The generator's fold is invariant under list reversal: insertion
order does not matter. -/
theorem maxPONumFold_reverse (l : List PurchaseOrder) (a : Nat) :
    maxPONumFold l.reverse a = maxPONumFold l a := by
  rw [maxPONumFold_eq_foldl_max, maxPONumFold_eq_foldl_max, List.map_reverse,
    foldl_max_reverse]

/-- The generator's fold distributes over append. -/
theorem maxPONumFold_append (l₁ l₂ : List PurchaseOrder) (a : Nat) :
    maxPONumFold (l₁ ++ l₂) a = maxPONumFold l₂ (maxPONumFold l₁ a) := by
  unfold maxPONumFold
  exact List.foldl_append _ _ _ _

/-- Header updates touch only the purchase_orders table. -/
theorem applyPOUpdates_products (s : Store) (poId : String) (u : POUpdates) :
    (applyPOUpdates s poId u).products = s.products := rfl

/-- Header updates do not touch the line items. -/
theorem applyPOUpdates_po_line_items (s : Store) (poId : String) (u : POUpdates) :
    (applyPOUpdates s poId u).po_line_items = s.po_line_items := rfl

/-- Header updates do not touch the movement log. -/
theorem applyPOUpdates_movements (s : Store) (poId : String) (u : POUpdates) :
    (applyPOUpdates s poId u).stock_movements = s.stock_movements := rfl

/-- A line-items insert never touches the products table. -/
theorem insertLineItems_products (s : Store) (rows : List POLineItem) :
    (insertLineItems s rows).fst.products = s.products := by
  unfold insertLineItems
  split <;> rfl

/-- A line-items insert never touches the movement log. -/
theorem insertLineItems_movements (s : Store) (rows : List POLineItem) :
    (insertLineItems s rows).fst.stock_movements = s.stock_movements := by
  unfold insertLineItems
  split <;> rfl

/-- After a line-items insert, every line item either existed before or
is one of the inserted rows. -/
theorem insertLineItems_mem (s : Store) (rows : List POLineItem) (li : POLineItem) :
    li ∈ (insertLineItems s rows).fst.po_line_items → li ∈ s.po_line_items ∨ li ∈ rows := by
  unfold insertLineItems
  split
  · intro h
    simpa using List.mem_append.mp h
  · intro h
    exact Or.inl h

/-- The status/date update touches only the purchase_orders table. -/
theorem setPOStatusDate_movements (s : Store) (poId st : String) (d : Option String) :
    (setPOStatusDate s poId st d).stock_movements = s.stock_movements := rfl

/-- The status/date update does not touch the line items. -/
theorem setPOStatusDate_po_line_items (s : Store) (poId st : String) (d : Option String) :
    (setPOStatusDate s poId st d).po_line_items = s.po_line_items := rfl

/-- The status/date update does not touch the products. -/
theorem setPOStatusDate_products (s : Store) (poId st : String) (d : Option String) :
    (setPOStatusDate s poId st d).products = s.products := rfl

/-- The receive loop appends exactly one movement per line item row. -/
theorem receiveLoop_movements_length (po : PurchaseOrder) :
    ∀ (l : List POLineItem) (s : Store),
      (l.foldl (receiveLoopStep po) s).stock_movements.length =
        s.stock_movements.length + l.length := by
  intro l
  induction l with
  | nil => intro s; simp
  | cons li l ih =>
    intro s
    rw [List.foldl_cons, ih]
    simp [receiveLoopStep, appendMovement, addProductStock]
    omega

/-- C6 (amended): receiving an already-received PO is NOT rejected: the
receive operation returns no error for any store and PO id (there is no
status guard and no "already received" / "not found" error anywhere),
and it re-applies its side effects -- one fresh movement is appended per
line item of the PO, duplicating the earlier receive's log entries. -/
theorem c6_amended_rereceive_not_guarded (s : Store) (today poId : String)
    (po : PurchaseOrder) (hpo : findPO? s poId = some po)
    (_hst : po.status = statusReceived) :
    (receivePurchaseOrder s today poId).snd = none ∧
    (receivePurchaseOrder s today poId).fst.stock_movements.length =
      s.stock_movements.length +
        (s.po_line_items.filter (fun li => li.po_id == poId)).length := by
  constructor
  · rfl
  · show (receive_purchase_order s today poId).stock_movements.length = _
    simp only [receive_purchase_order, hpo]
    rw [setPOStatusDate_movements]
    exact receiveLoop_movements_length po _ s

/-- Witness for the C6 amended theorem at the concrete store `c6Store`. -/
theorem c6_amended_rereceive_not_guarded_witness :
    findPO? c6Store c6PO.id = some c6PO ∧ c6PO.status = statusReceived ∧
    ((receivePurchaseOrder c6Store day2 c6PO.id).snd = none ∧
      (receivePurchaseOrder c6Store day2 c6PO.id).fst.stock_movements.length =
        c6Store.stock_movements.length +
          (c6Store.po_line_items.filter (fun li => li.po_id == c6PO.id)).length) :=
  ⟨by decide, by decide,
    c6_amended_rereceive_not_guarded c6Store day2 c6PO.id c6PO (by decide) (by decide)⟩

/-- C7 (amended): Delete performs no status guard at all: for every store
and PO id (received or not) it returns no error and removes the header
row and every line item of the PO -- so the "succeeds for draft/ordered,
removing header and line items" half of the claim holds, but so does the
same for received POs; products and the movement log are untouched. -/
theorem c7_amended_delete_unguarded (s : Store) (poId : String) :
    (deletePurchaseOrder s poId).snd = none ∧
    (∀ po ∈ (deletePurchaseOrder s poId).fst.purchase_orders, po.id ≠ poId) ∧
    (∀ li ∈ (deletePurchaseOrder s poId).fst.po_line_items, li.po_id ≠ poId) ∧
    (deletePurchaseOrder s poId).fst.products = s.products ∧
    (deletePurchaseOrder s poId).fst.stock_movements = s.stock_movements := by
  refine ⟨rfl, ?_, ?_, rfl, rfl⟩
  · intro po hmem
    have h := (List.mem_filter.mp hmem).2
    simpa using h
  · intro li hmem
    have h := (List.mem_filter.mp hmem).2
    simpa using h

/-- C10: when the edit operation is given a replacement line-item list,
every line item of the edited PO afterwards has received_qty = 0 (the
old rows, including any receipt progress, were deleted; the new rows are
initialised to 0; if the re-insert fails the PO simply has no line
items), while products and the movement log are untouched. -/
theorem c10_update_resets_receipt (s : Store) (poId : String)
    (updates : POUpdates) (items : List NewLineItem) :
    (∀ li ∈ (updatePurchaseOrder s poId updates (some items)).fst.po_line_items,
        li.po_id = poId → li.received_qty = 0) ∧
    (updatePurchaseOrder s poId updates (some items)).fst.products = s.products ∧
    (updatePurchaseOrder s poId updates (some items)).fst.stock_movements =
      s.stock_movements := by
  have hred : updatePurchaseOrder s poId updates (some items) =
      insertLineItems
        { applyPOUpdates s poId updates with
          po_line_items :=
            (applyPOUpdates s poId updates).po_line_items.filter
              (fun li => !(li.po_id == poId)) }
        (mkLineItemRows poId 0 items) := rfl
  refine ⟨?_, ?_, ?_⟩
  · intro li hmem hpo
    rw [hred] at hmem
    rcases insertLineItems_mem _ _ _ hmem with h | h
    · exfalso
      have hne := (List.mem_filter.mp h).2
      simp only [Bool.not_eq_eq_eq_not, Bool.not_true, beq_eq_false_iff_ne] at hne
      exact hne hpo
    · exact (mkLineItemRows_mem items poId 0 li h).1
  · rw [hred, insertLineItems_products]
    rfl
  · rw [hred, insertLineItems_movements]
    rfl


/-- A successful line-items insert appends exactly the given rows. -/
theorem insertLineItems_pos (s : Store) (rows : List POLineItem)
    (h : rows.all (fun r => (findProduct? s r.product_id).isSome) = true) :
    insertLineItems s rows = ({ s with po_line_items := s.po_line_items ++ rows }, none) := by
  unfold insertLineItems
  rw [if_pos h]

/-- The checked status update never touches the line items. -/
theorem dbUpdatePOStatus_po_line_items (s : Store) (poId st : String) (d : Option String) :
    (dbUpdatePOStatus s poId st d).fst.po_line_items = s.po_line_items := by
  unfold dbUpdatePOStatus
  split <;> rfl

/-- Appending a movement does not touch the line items. -/
theorem appendMovement_po_line_items (s : Store) (m : StockMovement) :
    (appendMovement s m).po_line_items = s.po_line_items := rfl

/-- Setting a product's stock does not touch the line items. -/
theorem setProductStock_po_line_items (s : Store) (pid : String) (v : Int) :
    (setProductStock s pid v).po_line_items = s.po_line_items := rfl

/-- C9: for every valid creation input whose products all exist, the
created PO row's cached total_amount equals Σ quantity × unit_cost over
the line items, the inserted line-item rows (and only they) are appended
with received_qty = 0, and the products table -- in particular every
stock value -- is untouched. -/
theorem c9_create_po_correct (s : Store) (newId : String) (po : POInput)
    (items : List NewLineItem)
    (_hne : items ≠ [])
    (_hqty : ∀ i ∈ items, 0 < i.quantity)
    (_hcost : ∀ i ∈ items, 0 ≤ i.unit_cost)
    (hfk : ∀ i ∈ items, (findProduct? s i.product_id).isSome) :
    (∃ poRow, (createPurchaseOrder s newId po items).snd = Except.ok poRow ∧
      poRow.total_amount = (items.map (fun i => (i.quantity : Rat) * i.unit_cost)).sum) ∧
    (createPurchaseOrder s newId po items).fst.po_line_items =
      s.po_line_items ++ mkLineItemRows newId 0 items ∧
    (∀ r ∈ mkLineItemRows newId 0 items, r.received_qty = 0) ∧
    (createPurchaseOrder s newId po items).fst.products = s.products := by
  have hall : ∀ (t : Store), t.products = s.products →
      (mkLineItemRows newId 0 items).all
        (fun r => (findProduct? t r.product_id).isSome) = true := by
    intro t ht
    rw [List.all_eq_true]
    intro r hr
    rcases mkLineItemRows_mem items newId 0 r hr with ⟨-, -, it, hit, hpid⟩
    have heq : findProduct? t r.product_id = findProduct? s it.product_id := by
      unfold findProduct?
      rw [ht, hpid]
    simp only [heq]
    exact hfk it hit
  simp only [createPurchaseOrder]
  rw [insertLineItems_pos]
  · exact ⟨⟨_, rfl, lineItemsTotal_eq_sum items⟩, rfl,
      (fun r hr => (mkLineItemRows_mem items newId 0 r hr).1), rfl⟩
  · exact hall _ rfl

/-- Witness for the C9 theorem at the concrete inputs c9Store, c9Input,
c9Items: the created total is 2 x 3 + 4 x 7 = 34. -/
theorem c9_create_po_correct_witness :
    c9Items ≠ [] ∧ (∀ i ∈ c9Items, 0 < i.quantity) ∧ (∀ i ∈ c9Items, 0 ≤ i.unit_cost) ∧
    (∀ i ∈ c9Items, (findProduct? c9Store i.product_id).isSome) ∧
    ((∃ poRow, (createPurchaseOrder c9Store c9NewId c9Input c9Items).snd = Except.ok poRow ∧
        poRow.total_amount =
          (c9Items.map (fun i => (i.quantity : Rat) * i.unit_cost)).sum) ∧
      (createPurchaseOrder c9Store c9NewId c9Input c9Items).fst.po_line_items =
        c9Store.po_line_items ++ mkLineItemRows c9NewId 0 c9Items ∧
      (∀ r ∈ mkLineItemRows c9NewId 0 c9Items, r.received_qty = 0) ∧
      (createPurchaseOrder c9Store c9NewId c9Input c9Items).fst.products =
        c9Store.products) :=
  ⟨by decide, by decide, by decide, by decide,
    c9_create_po_correct c9Store c9NewId c9Input c9Items (by decide) (by decide)
      (by decide) (by decide)⟩

/-- C4 (amended): a Partial Receive entry with delta > 0 sets the line
item's received_qty to exactly previous + delta with NO clamp: the bound
received_qty ≤ quantity is preserved only when the caller's delta does
not exceed the outstanding quantity, and an oversized delta drives
received_qty above the ordered quantity. -/
theorem c4_amended_delta_unclamped (s : Store) (today poId : String)
    (item : ReceivedItem) (li : POLineItem)
    (hfind : findLineItem? s item.line_item_id = some li)
    (hpos : 0 < item.received_qty) :
    ∃ li' ∈ (partialReceivePO s today poId [item]).fst.po_line_items,
      li'.id = li.id ∧ li'.received_qty = li.received_qty + item.received_qty := by
  have hneg : ¬ (item.received_qty ≤ 0) := by omega
  have hpl : (partialReceivePO s today poId [item]).fst.po_line_items =
      (setLineItemReceivedQty s item.line_item_id
        (li.received_qty + item.received_qty)).po_line_items := by
    simp only [partialReceivePO, processReceivedItems, hfind, if_neg hneg]
    cases hp : findProduct?
        (setLineItemReceivedQty s item.line_item_id
          (li.received_qty + item.received_qty)) item.product_id with
    | none => rfl
    | some product =>
      simp only []
      split
      · rw [dbUpdatePOStatus_po_line_items]
        rfl
      · rw [dbUpdatePOStatus_po_line_items]
        rfl
  have hfind2 : s.po_line_items.find? (fun l => l.id == item.line_item_id) = some li := hfind
  have hmem : li ∈ s.po_line_items := List.mem_of_find?_eq_some hfind2
  have hpred : (li.id == item.line_item_id) = true := by
    have h := List.find?_some hfind2
    simpa using h
  refine ⟨{ li with received_qty := li.received_qty + item.received_qty }, ?_, rfl, rfl⟩
  rw [hpl]
  have hfn : ({ li with received_qty := li.received_qty + item.received_qty } : POLineItem) =
      (fun l => if l.id == item.line_item_id then
        { l with received_qty := li.received_qty + item.received_qty } else l) li := by
    simp only [hpred, if_true]
  rw [hfn]
  exact List.mem_map_of_mem _ hmem

/-- Witness for the C4 amended theorem: on `c4wStore` (10 ordered, 2
received) a delta of 3 yields received_qty 2 + 3 = 5. -/
theorem c4_amended_delta_unclamped_witness :
    findLineItem? c4wStore c4wItem.line_item_id = some c4wLi ∧
    0 < c4wItem.received_qty ∧
    ∃ li' ∈ (partialReceivePO c4wStore day1 c4wLi.po_id [c4wItem]).fst.po_line_items,
      li'.id = c4wLi.id ∧ li'.received_qty = c4wLi.received_qty + c4wItem.received_qty :=
  ⟨by decide, by decide,
    c4_amended_delta_unclamped c4wStore day1 c4wLi.po_id c4wItem c4wLi
      (by decide) (by decide)⟩

/-- C8 (amended): whenever at most 500 stored PO numbers match 'PO-%'
case-insensitively and at least one does, the generator returns "PO-"
followed by one plus the largest leading digit run among ALL matching
numbers (rows the regex rejects count as 0), independent of insertion
order; beyond 500 matching rows only the 500 most recently created are
scanned (see the counterexample). -/
theorem c8_amended_next_po_number (s : Store)
    (h500 : (s.purchase_orders.filter (fun po => ilikePoDash po.po_number)).length ≤ 500)
    (hne : s.purchase_orders.filter (fun po => ilikePoDash po.po_number) ≠ []) :
    getNextPONumber s =
      strPO ++ Nat.repr
        (maxPONumFold (s.purchase_orders.filter (fun po => ilikePoDash po.po_number)) 0 + 1) := by
  simp only [getNextPONumber]
  have htake : (s.purchase_orders.filter (fun po => ilikePoDash po.po_number)).reverse.take 500 =
      (s.purchase_orders.filter (fun po => ilikePoDash po.po_number)).reverse := by
    apply List.take_of_length_le
    rw [List.length_reverse]
    exact h500
  rw [htake]
  have hni : (s.purchase_orders.filter (fun po => ilikePoDash po.po_number)).reverse.isEmpty =
      false := by
    rw [List.isEmpty_eq_false]
    simpa using hne
  rw [hni]
  simp only [Bool.false_eq_true, if_false]
  rw [maxPONumFold_reverse]

/-- Witness for the C8 amended theorem: the spec's scenario
["PO-1001", "PO-1002", "PO-99"] yields "PO-1003". -/
theorem c8_amended_next_po_number_witness :
    (c8ScenarioStore.purchase_orders.filter (fun po => ilikePoDash po.po_number)).length ≤ 500 ∧
    c8ScenarioStore.purchase_orders.filter (fun po => ilikePoDash po.po_number) ≠ [] ∧
    getNextPONumber c8ScenarioStore =
      strPO ++ Nat.repr
        (maxPONumFold
          (c8ScenarioStore.purchase_orders.filter (fun po => ilikePoDash po.po_number)) 0 + 1) ∧
    getNextPONumber c8ScenarioStore = strPO1003 :=
  ⟨by decide, by decide,
    c8_amended_next_po_number c8ScenarioStore (by decide) (by decide), by decide⟩

/-- C8 counterexample: the claim quantifies over every store state and
takes the maximum over ALL existing PO numbers, but the query reads only
the 500 most recently created matching rows.  In `c8BigStore` the oldest
PO carries the largest number "PO-9999" and 500 newer POs carry
"PO-1" .. "PO-500": the generator returns "PO-501", not the "PO-10000"
the claim requires. -/
theorem c8_counterexample_limit_500 :
    getNextPONumber c8BigStore = strPO501 ∧ strPO501 ≠ strPO10000 := by
  have hfA : (c8NumsA.map mkNumberedPO).filter (fun po => ilikePoDash po.po_number) =
      c8NumsA.map mkNumberedPO := by decide
  have hfB : (c8NumsB.map mkNumberedPO).filter (fun po => ilikePoDash po.po_number) =
      c8NumsB.map mkNumberedPO := by decide
  have hfC : (c8NumsC.map mkNumberedPO).filter (fun po => ilikePoDash po.po_number) =
      c8NumsC.map mkNumberedPO := by decide
  have hfD : (c8NumsD.map mkNumberedPO).filter (fun po => ilikePoDash po.po_number) =
      c8NumsD.map mkNumberedPO := by decide
  have hfiller : c8FillerNums.map mkNumberedPO =
      c8NumsA.map mkNumberedPO ++ c8NumsB.map mkNumberedPO ++
        c8NumsC.map mkNumberedPO ++ c8NumsD.map mkNumberedPO := by
    simp only [c8FillerNums, List.map_append]
  have hfilter : c8BigStore.purchase_orders.filter (fun po => ilikePoDash po.po_number) =
      c8BigStore.purchase_orders := by
    show (mkNumberedPO strPO9999 :: c8FillerNums.map mkNumberedPO).filter
        (fun po => ilikePoDash po.po_number) =
      mkNumberedPO strPO9999 :: c8FillerNums.map mkNumberedPO
    rw [List.filter_cons_of_pos (by decide)]
    rw [hfiller, List.filter_append, List.filter_append, List.filter_append,
      hfA, hfB, hfC, hfD]
  have hlen : (c8FillerNums.map mkNumberedPO).length = 500 := by
    rw [List.length_map]
    show (c8NumsA ++ c8NumsB ++ c8NumsC ++ c8NumsD).length = 500
    simp only [List.length_append]
    rw [show c8NumsA.length = 125 from by decide, show c8NumsB.length = 125 from by decide,
      show c8NumsC.length = 125 from by decide, show c8NumsD.length = 125 from by decide]
  have hrevlen : (c8FillerNums.map mkNumberedPO).reverse.length = 500 := by
    rw [List.length_reverse]
    exact hlen
  have hdata : (c8BigStore.purchase_orders.filter
        (fun po => ilikePoDash po.po_number)).reverse.take 500 =
      (c8FillerNums.map mkNumberedPO).reverse := by
    rw [hfilter]
    show (mkNumberedPO strPO9999 :: c8FillerNums.map mkNumberedPO).reverse.take 500 = _
    rw [List.reverse_cons]
    exact List.take_left' hrevlen
  have hni : (c8FillerNums.map mkNumberedPO).reverse.isEmpty = false := by
    rw [List.isEmpty_eq_false]
    intro h
    have hl := congrArg List.length h
    rw [hrevlen] at hl
    exact absurd hl (by decide)
  have hmax : maxPONumFold ((c8FillerNums.map mkNumberedPO).reverse) 0 = 500 := by
    rw [maxPONumFold_reverse, hfiller, maxPONumFold_append, maxPONumFold_append,
      maxPONumFold_append]
    rw [show maxPONumFold (c8NumsA.map mkNumberedPO) 0 = 125 from by decide]
    rw [show maxPONumFold (c8NumsB.map mkNumberedPO) 125 = 250 from by decide]
    rw [show maxPONumFold (c8NumsC.map mkNumberedPO) 250 = 375 from by decide]
    rw [show maxPONumFold (c8NumsD.map mkNumberedPO) 375 = 500 from by decide]
  constructor
  · simp only [getNextPONumber]
    rw [hdata, hni]
    simp only [Bool.false_eq_true, if_false]
    rw [hmax]
    decide
  · decide
